import Mathlib

/-!
Verification of the Aether adapter service (`src/server/app.py`), a small
Flask relay between email clients and a local Ollama inference backend.

The embedding below models the three pure ingredients the claims are about:

* the backend health probe `check_ollama`,
* the request handlers `summarize_email`, `generate_reply`, `health_check`
  and `ollama_status`, abstracted over the outcome of the two network calls
  (the HTTP result of the probe and the result of the generation call), and
* the string post-processing in `generate_reply` (name resolution, greeting
  prepending, sign-off appending).

Python strings are modelled by `String`, JSON presence/absence of a field by
`Option`, the arriving JSON body by `Option Request` (`none` covers both a
missing body and a falsy one), and exceptions from the network calls by
explicit constructors (`ProbeResult`) respectively `Except String String`
for the generation call (`.error e` is an exception with message `e`).
-/

/-- Substring test on character lists: does `needle` occur contiguously in
`hay`?  Mirrors Python `needle in hay`. -/
def sublistAt : List Char → List Char → Bool
  | needle, [] => needle.isEmpty
  | needle, c :: rest => needle.isPrefixOf (c :: rest) || sublistAt needle rest

/-- Python `needle in hay` on strings. -/
def containsSubstr (needle hay : String) : Bool :=
  sublistAt needle.data hay.data

/-- Python `str.lower()`. -/
def strLower (s : String) : String :=
  ⟨s.data.map Char.toLower⟩

/-- Python truthiness test on a string: empty strings are falsy. -/
def strIsEmpty (s : String) : Bool :=
  s.data.isEmpty

/-- Python `s.startswith(pre)`. -/
def strStartsWith (s pre : String) : Bool :=
  pre.data.isPrefixOf s.data

/-- Python `c in s` for a single character `c`. -/
def strContainsChar (s : String) (c : Char) : Bool :=
  s.data.any (fun x => x == c)

/-- The characters before the first occurrence of `c` (the whole list when
`c` does not occur): Python `s.split(c)[0]`. -/
def takeBefore (c : Char) : List Char → List Char
  | [] => []
  | x :: xs => if x == c then [] else x :: takeBefore c xs

/-- Python `s.split(c)[0]` on strings. -/
def beforeChar (c : Char) (s : String) : String :=
  ⟨takeBefore c s.data⟩

/-- Python `str.strip()`: leading and trailing whitespace removed. -/
def pyStrip (s : String) : String :=
  ⟨((s.data.dropWhile Char.isWhitespace).reverse.dropWhile Char.isWhitespace).reverse⟩

/-- Python `str.capitalize()`: first character upper-cased, the rest
lower-cased. -/
def pyCapitalize (s : String) : String :=
  match s.data with
  | [] => ""
  | c :: rest => String.mk (c.toUpper :: rest.map Char.toLower)

/-- One outcome of the probe call `requests.get("http://localhost:11434/api/tags")`:
either an HTTP response (status code plus the `name` of each entry of the
returned `models` collection, `model.get("name", "")` defaulting to `""`),
a `requests.exceptions.ConnectionError`, or any other exception with its
message. -/
inductive ProbeResult where
  | httpResponse (statusCode : Nat) (modelNames : List String)
  | connectionError
  | otherError (msg : String)
deriving DecidableEq

/-- The remediation message `check_ollama` produces when the model list lacks
the required model. -/
def missingModelMsg : String :=
  "Llama 3.2 1B model is not available. Please run 'ollama pull llama3.2:1b'"

/-- The message used both by the probe on `ConnectionError` and by the
generation handlers on a "Connection refused" exception. -/
def cannotConnectMsg : String :=
  "Cannot connect to Ollama. Please make sure Ollama is running"

/-- `check_ollama` from app.py: probes the model-listing endpoint
and returns `(is_running, error_message)`. -/
def check_ollama : ProbeResult → Bool × Option String
  | .httpResponse statusCode modelNames =>
    if statusCode = 200 then
      if modelNames.any (fun n => containsSubstr "llama3.2:1b" (strLower n)) then
        (true, none)
      else
        (false, some missingModelMsg)
    else
      (false, some ("Ollama returned status code " ++ toString statusCode))
  | .connectionError => (false, some cannotConnectMsg)
  | .otherError msg => (false, some ("Error checking Ollama: " ++ msg))

/-- JSON body of a `/summarize-email` request; `none` fields are absent keys. -/
structure SummarizeRequest where
  content : Option String
  model : Option String
deriving DecidableEq

/-- JSON body of a `/generate-reply` request; `none` fields are absent keys. -/
structure ReplyRequest where
  emailContent : Option String
  emailSubject : Option String
  sender : Option String
  userEmail : Option String
  recipientName : Option String
  recipientEmail : Option String
  model : Option String
deriving DecidableEq

/-- The JSON payloads the service can answer with. -/
inductive JsonBody where
  | errorBody (msg : String)
  | summaryBody (summary : String)
  | replyBody (reply : String)
  | statusBody (status : String) (message : String)
      (ollamaStatus : Option String) (ollamaError : Option String)
deriving DecidableEq

/-- Whether a response payload carries an `error` key. -/
def hasErrorKey : JsonBody → Bool
  | .errorBody _ => true
  | _ => false

/-- `sender_name` resolution in `generate_reply`:
`recipient_name or ""`, falling back to the trimmed text before `<` in
`sender` when that is non-empty. -/
def resolveSenderName (recipient_name sender : String) : String :=
  let sender_name := recipient_name
  if strIsEmpty sender_name && !strIsEmpty sender then
    let name_match := pyStrip (beforeChar '<' sender)
    if !strIsEmpty name_match then name_match else sender_name
  else sender_name

/-- `user_name` resolution in `generate_reply`: the text before `@` in
`user_email`, capitalized, defaulting to `"Me"`. -/
def resolveUserName (user_email : String) : String :=
  if !strIsEmpty user_email && strContainsChar user_email '@' then
    let user_name_match := beforeChar '@' user_email
    if !strIsEmpty user_name_match then pyCapitalize user_name_match else "Me"
  else "Me"

/-- The recipient-greeting name `generate_reply` resolves from the request
optional `recipientName` and `sender` fields (both defaulting to the empty string). -/
def resolvedRecipient (recipientName sender : Option String) : String :=
  resolveSenderName (recipientName.getD "") (sender.getD "")

/-- The signer name `generate_reply` resolves from the request optional
`userEmail` field (default "user@example.com"). -/
def resolvedSigner (userEmail : Option String) : String :=
  resolveUserName (userEmail.getD "user@example.com")

/-- The greeting line: `f"Hi {sender_name}," if sender_name else "Hello,"`. -/
def greetingOf (sender_name : String) : String :=
  if !strIsEmpty sender_name then "Hi " ++ sender_name ++ "," else "Hello,"

/-- `reply.startswith("Hi") or reply.startswith("Hello") or reply.startswith("Dear")`. -/
def hasGreetingStart (reply : String) : Bool :=
  strStartsWith reply "Hi" || strStartsWith reply "Hello" || strStartsWith reply "Dear"

/-- `not "regards" in reply.lower() and not "sincerely" in reply.lower() and
not "best" in reply.lower()`. -/
def noClosingToken (reply : String) : Bool :=
  !containsSubstr "regards" (strLower reply)
    && !containsSubstr "sincerely" (strLower reply)
    && !containsSubstr "best" (strLower reply)

/-- Greeting rule of `generate_reply`: prepend the greeting when the reply
does not already start with one. -/
def afterGreeting (greeting reply : String) : String :=
  if !hasGreetingStart reply then greeting ++ "\n\n" ++ reply else reply

/-- Sign-off rule of `generate_reply`: append `"Best regards,\n" + user_name`
when no closing token occurs in the reply. -/
def withSignoff (user_name reply : String) : String :=
  if noClosingToken reply then reply ++ "\n\nBest regards,\n" ++ user_name
  else reply

/-- The `/summarize-email` handler, abstracted over the probe outcome and the
result of `llm.invoke` (`.ok` the generated text, `.error` an exception
message). -/
def summarize_email (body : Option SummarizeRequest) (probe : ProbeResult)
    (gen : Except String String) : Nat × JsonBody :=
  match body with
  | none => (400, .errorBody "No email content provided")
  | some data =>
    if data.content.isNone then (400, .errorBody "No email content provided")
    else
      if !(check_ollama probe).1 then (503, .errorBody ((check_ollama probe).2.getD ""))
      else
        match gen with
        | .ok response => (200, .summaryBody (pyStrip response))
        | .error e =>
          if containsSubstr "Connection refused" e then
            (503, .errorBody cannotConnectMsg)
          else
            (500, .errorBody ("Error summarizing email: " ++ e))

/-- The `/generate-reply` handler, abstracted over the probe outcome and the
result of `llm.invoke`. -/
def generate_reply (body : Option ReplyRequest) (probe : ProbeResult)
    (gen : Except String String) : Nat × JsonBody :=
  match body with
  | none => (400, .errorBody "No email content provided")
  | some data =>
    if data.emailContent.isNone then (400, .errorBody "No email content provided")
    else
      if !(check_ollama probe).1 then (503, .errorBody ((check_ollama probe).2.getD ""))
      else
        match gen with
        | .ok response =>
          let sender_name := resolvedRecipient data.recipientName data.sender
          let user_name := resolvedSigner data.userEmail
          let greeting := greetingOf sender_name
          (200, .replyBody (withSignoff user_name (afterGreeting greeting (pyStrip response))))
        | .error e =>
          if containsSubstr "Connection refused" e then
            (503, .errorBody cannotConnectMsg)
          else
            (500, .errorBody ("Error generating reply: " ++ e))

/-- The `GET /` handler. -/
def health_check (probe : ProbeResult) : Nat × JsonBody :=
  if (check_ollama probe).1 then
    (200, .statusBody "ok" "Flask server is running" (some "running") none)
  else
    (200, .statusBody "warning" "Flask server is running, but Ollama has issues"
      (some "error") (check_ollama probe).2)

/-- The `GET /ollama-status` handler. -/
def ollama_status (probe : ProbeResult) : Nat × JsonBody :=
  if (check_ollama probe).1 then
    (200, .statusBody "ok" "Ollama is running and Llama 3.2 1B model is available" none none)
  else
    (503, .statusBody "error" ((check_ollama probe).2.getD "") none none)

/-- Appending strings is associative. -/
theorem strAppend_assoc (a b c : String) : a ++ b ++ c = a ++ (b ++ c) := by
  cases a with | mk as =>
  cases b with | mk bs =>
  cases c with | mk cs =>
  show String.mk (as ++ bs ++ cs) = String.mk (as ++ (bs ++ cs))
  rw [List.append_assoc]

/-- C7: `GET /` always returns HTTP 200 whatever the health probe reports, and
`GET /ollama-status` returns HTTP 503 exactly when the health probe reports
the backend unhealthy (otherwise 200). -/
theorem root_always_200_status_503_iff_unhealthy (probe : ProbeResult) :
    (health_check probe).1 = 200
      ∧ ((ollama_status probe).1 = 503 ↔ (check_ollama probe).1 = false)
      ∧ ((check_ollama probe).1 = true → (ollama_status probe).1 = 200) := by
  unfold health_check ollama_status
  cases h : (check_ollama probe).1 <;> simp [h]

/-- Witness for C7 at concrete probe outcomes. -/
theorem root_always_200_status_503_iff_unhealthy_witness :
    (health_check .connectionError).1 = 200
      ∧ ((ollama_status .connectionError).1 = 503 ↔ (check_ollama .connectionError).1 = false)
      ∧ (ollama_status (.httpResponse 200 ["llama3.2:1b"])).1 = 200 := by
  refine ⟨(root_always_200_status_503_iff_unhealthy .connectionError).1,
    (root_always_200_status_503_iff_unhealthy .connectionError).2.1,
    (root_always_200_status_503_iff_unhealthy (.httpResponse 200 ["llama3.2:1b"])).2.2 (by decide)⟩

/-- C5: a POST to `/summarize-email` whose body lacks `content`, and a POST to
`/generate-reply` whose body lacks `emailContent`, each return HTTP 400 with
an `error` key in the JSON response, whatever the probe and generation
outcomes. -/
theorem missing_required_field_400 (sbody : Option SummarizeRequest)
    (rbody : Option ReplyRequest) (probe probe2 : ProbeResult)
    (gen gen2 : Except String String)
    (hs : ∀ d, sbody = some d → d.content = none)
    (hr : ∀ d, rbody = some d → d.emailContent = none) :
    (summarize_email sbody probe gen).1 = 400
      ∧ hasErrorKey (summarize_email sbody probe gen).2 = true
      ∧ (generate_reply rbody probe2 gen2).1 = 400
      ∧ hasErrorKey (generate_reply rbody probe2 gen2).2 = true := by
  refine ⟨?_, ?_, ?_, ?_⟩ <;>
    first
    | (cases sbody with
       | none => simp [summarize_email, hasErrorKey]
       | some d => simp [summarize_email, hasErrorKey, hs d rfl])
    | (cases rbody with
       | none => simp [generate_reply, hasErrorKey]
       | some d => simp [generate_reply, hasErrorKey, hr d rfl])

/-- Witness for C5: a present body missing only the required field, and a
missing body. -/
theorem missing_required_field_400_witness :
    (summarize_email (some ⟨none, some "llama3.2:1b"⟩) .connectionError (.ok "hello")).1 = 400
      ∧ hasErrorKey (summarize_email (some ⟨none, some "llama3.2:1b"⟩) .connectionError (.ok "hello")).2 = true
      ∧ (generate_reply none (.httpResponse 200 ["llama3.2:1b"]) (.ok "hello")).1 = 400
      ∧ hasErrorKey (generate_reply none (.httpResponse 200 ["llama3.2:1b"]) (.ok "hello")).2 = true :=
  missing_required_field_400 (some ⟨none, some "llama3.2:1b"⟩) none
    .connectionError (.httpResponse 200 ["llama3.2:1b"]) (.ok "hello") (.ok "hello")
    (fun d hd => by cases hd; rfl) (fun d hd => by cases hd)

/-- C6: when the required field is present but the probe reports the required
model absent (HTTP 200 from the backend, no listed name containing the
required identifier), both generation endpoints return 503 with the
remediation message, which names the missing model `llama3.2:1b`. -/
theorem model_absent_503_names_model (names : List String)
    (hn : names.any (fun n => containsSubstr "llama3.2:1b" (strLower n)) = false)
    (sdata : SummarizeRequest) (c : String) (hs : sdata.content = some c)
    (rdata : ReplyRequest) (c2 : String) (hr : rdata.emailContent = some c2)
    (gen gen2 : Except String String) :
    summarize_email (some sdata) (.httpResponse 200 names) gen
        = (503, .errorBody missingModelMsg)
      ∧ generate_reply (some rdata) (.httpResponse 200 names) gen2
        = (503, .errorBody missingModelMsg)
      ∧ containsSubstr "llama3.2:1b" missingModelMsg = true := by
  refine ⟨?_, ?_, by decide⟩ <;>
    simp [summarize_email, generate_reply, check_ollama, hn, hs, hr]

/-- Witness for C6 at a concrete model list and concrete requests. -/
theorem model_absent_503_names_model_witness :
    summarize_email (some ⟨some "body", none⟩) (.httpResponse 200 ["mistral:7b"]) (.ok "hello")
        = (503, .errorBody missingModelMsg)
      ∧ generate_reply (some ⟨some "body", none, none, none, none, none, none⟩)
          (.httpResponse 200 ["mistral:7b"]) (.ok "hello")
        = (503, .errorBody missingModelMsg)
      ∧ containsSubstr "llama3.2:1b" missingModelMsg = true :=
  model_absent_503_names_model ["mistral:7b"] (by decide)
    ⟨some "body", none⟩ "body" rfl
    ⟨some "body", none, none, none, none, none, none⟩ "body" rfl
    (.ok "hello") (.ok "hello")

/-- C4: the probe is healthy exactly when the model-listing call yields
HTTP 200 and some listed name contains the required identifier
case-insensitively; a non-200 status gives an unhealthy state with the
status code embedded at the end of the message; a connection failure gives
the "cannot connect" message; any other exception gives an unhealthy state
whose message carries the raw error text. -/
theorem check_ollama_outcomes (statusCode : Nat) (names : List String) (e : String) :
    ((check_ollama (.httpResponse statusCode names)).1 = true
        ↔ statusCode = 200
          ∧ names.any (fun n => containsSubstr "llama3.2:1b" (strLower n)) = true)
      ∧ (statusCode ≠ 200 →
          ∃ pre, check_ollama (.httpResponse statusCode names)
            = (false, some (pre ++ toString statusCode)))
      ∧ check_ollama .connectionError = (false, some cannotConnectMsg)
      ∧ containsSubstr "cannot connect" (strLower cannotConnectMsg) = true
      ∧ ∃ pre, check_ollama (.otherError e) = (false, some (pre ++ e)) := by
  refine ⟨?_, ?_, by decide, by decide, ⟨"Error checking Ollama: ", rfl⟩⟩
  · by_cases h200 : statusCode = 200 <;>
      cases hany : names.any (fun n => containsSubstr "llama3.2:1b" (strLower n)) <;>
      simp [check_ollama, h200, hany]
  · intro h200
    exact ⟨"Ollama returned status code ", by simp [check_ollama, h200]⟩

/-- Witness for C4 at concrete probe outcomes. -/
theorem check_ollama_outcomes_witness :
    (check_ollama (.httpResponse 200 ["LLAMA3.2:1B-q4"])).1 = true
      ∧ (∃ pre, check_ollama (.httpResponse 404 [])
          = (false, some (pre ++ toString 404)))
      ∧ ∃ pre, check_ollama (.otherError "boom") = (false, some (pre ++ "boom")) :=
  ⟨(check_ollama_outcomes 200 ["LLAMA3.2:1B-q4"] "boom").1.mpr ⟨rfl, by decide⟩,
    (check_ollama_outcomes 404 [] "boom").2.1 (by decide),
    (check_ollama_outcomes 404 [] "boom").2.2.2.2⟩

/-- C8: an exception from the generation call with "Connection refused" in
its message yields 503 with the cannot-connect message; any other exception
yields 500 with an error message carrying the original exception text. -/
theorem generation_exception_mapping (sdata : SummarizeRequest) (c : String)
    (hs : sdata.content = some c)
    (rdata : ReplyRequest) (c2 : String) (hr : rdata.emailContent = some c2)
    (probe : ProbeResult) (hp : (check_ollama probe).1 = true) (e : String) :
    (containsSubstr "Connection refused" e = true →
        summarize_email (some sdata) probe (.error e) = (503, .errorBody cannotConnectMsg)
          ∧ generate_reply (some rdata) probe (.error e) = (503, .errorBody cannotConnectMsg))
      ∧ (containsSubstr "Connection refused" e = false →
          (∃ pre, summarize_email (some sdata) probe (.error e) = (500, .errorBody (pre ++ e)))
            ∧ ∃ pre, generate_reply (some rdata) probe (.error e) = (500, .errorBody (pre ++ e))) := by
  constructor
  · intro hc
    constructor <;> simp [summarize_email, generate_reply, hs, hr, hp, hc]
  · intro hc
    exact ⟨⟨"Error summarizing email: ", by simp [summarize_email, hs, hp, hc]⟩,
      ⟨"Error generating reply: ", by simp [generate_reply, hr, hp, hc]⟩⟩

/-- Witness for C8 at a concrete connection-refused exception and a concrete
other exception. -/
theorem generation_exception_mapping_witness :
    summarize_email (some ⟨some "body", none⟩) (.httpResponse 200 ["llama3.2:1b"])
        (.error "HTTPConnectionPool: Connection refused by host")
      = (503, .errorBody cannotConnectMsg)
      ∧ ∃ pre, generate_reply (some ⟨some "body", none, none, none, none, none, none⟩)
          (.httpResponse 200 ["llama3.2:1b"]) (.error "model exploded")
        = (500, .errorBody (pre ++ "model exploded")) :=
  ⟨((generation_exception_mapping ⟨some "body", none⟩ "body" rfl
      ⟨some "body", none, none, none, none, none, none⟩ "body" rfl
      (.httpResponse 200 ["llama3.2:1b"]) (by decide)
      "HTTPConnectionPool: Connection refused by host").1 (by decide)).1,
    ((generation_exception_mapping ⟨some "body", none⟩ "body" rfl
      ⟨some "body", none, none, none, none, none, none⟩ "body" rfl
      (.httpResponse 200 ["llama3.2:1b"]) (by decide)
      "model exploded").2 (by decide)).2⟩

/-- C10: the probe always tests for the fixed identifier `llama3.2:1b`,
independently of the `model` field of the request: with the required field
present and the backend answering 200, a generation request is rejected with
the 503 remediation response exactly when no listed name contains
`llama3.2:1b`, and changing the `model` field never changes the response. -/
theorem probe_checks_fixed_model (sdata : SummarizeRequest) (c : String)
    (hs : sdata.content = some c)
    (rdata : ReplyRequest) (c2 : String) (hr : rdata.emailContent = some c2)
    (names : List String) (gen gen2 : Except String String) (m m' : Option String) :
    (summarize_email (some sdata) (.httpResponse 200 names) gen
        = (503, .errorBody missingModelMsg)
      ↔ names.any (fun n => containsSubstr "llama3.2:1b" (strLower n)) = false)
      ∧ (generate_reply (some rdata) (.httpResponse 200 names) gen2
          = (503, .errorBody missingModelMsg)
        ↔ names.any (fun n => containsSubstr "llama3.2:1b" (strLower n)) = false)
      ∧ summarize_email (some { sdata with model := m }) (.httpResponse 200 names) gen
          = summarize_email (some { sdata with model := m' }) (.httpResponse 200 names) gen
      ∧ generate_reply (some { rdata with model := m }) (.httpResponse 200 names) gen2
          = generate_reply (some { rdata with model := m' }) (.httpResponse 200 names) gen2 := by
  refine ⟨?_, ?_, rfl, rfl⟩
  · cases hany : names.any (fun n => containsSubstr "llama3.2:1b" (strLower n)) with
    | false => simp [summarize_email, check_ollama, hs, hany]
    | true =>
      cases gen with
      | ok r => simp [summarize_email, check_ollama, hs, hany]
      | error e =>
        cases hcr : containsSubstr "Connection refused" e <;>
          simp [summarize_email, check_ollama, hs, hany, hcr] <;> decide
  · cases hany : names.any (fun n => containsSubstr "llama3.2:1b" (strLower n)) with
    | false => simp [generate_reply, check_ollama, hr, hany]
    | true =>
      cases gen2 with
      | ok r => simp [generate_reply, check_ollama, hr, hany]
      | error e =>
        cases hcr : containsSubstr "Connection refused" e <;>
          simp [generate_reply, check_ollama, hr, hany, hcr] <;> decide

/-- Witness for C10 at concrete requests differing only in `model`. -/
theorem probe_checks_fixed_model_witness :
    (summarize_email (some ⟨some "body", some "mistral:7b"⟩) (.httpResponse 200 []) (.ok "hi")
        = (503, .errorBody missingModelMsg)
      ↔ ([] : List String).any (fun n => containsSubstr "llama3.2:1b" (strLower n)) = false)
      ∧ summarize_email (some ⟨some "body", some "mistral:7b"⟩) (.httpResponse 200 []) (.ok "hi")
          = summarize_email (some ⟨some "body", some "qwen:0.5b"⟩) (.httpResponse 200 []) (.ok "hi")
      ∧ generate_reply (some ⟨some "body", none, none, none, none, none, some "mistral:7b"⟩)
              (.httpResponse 200 []) (.ok "hi")
          = generate_reply (some ⟨some "body", none, none, none, none, none, some "qwen:0.5b"⟩)
              (.httpResponse 200 []) (.ok "hi") :=
  ⟨(probe_checks_fixed_model ⟨some "body", none⟩ "body" rfl
      ⟨some "body", none, none, none, none, none, none⟩ "body" rfl
      [] (.ok "hi") (.ok "hi") (some "mistral:7b") (some "qwen:0.5b")).1,
    (probe_checks_fixed_model ⟨some "body", none⟩ "body" rfl
      ⟨some "body", none, none, none, none, none, none⟩ "body" rfl
      [] (.ok "hi") (.ok "hi") (some "mistral:7b") (some "qwen:0.5b")).2.2.1,
    (probe_checks_fixed_model ⟨some "body", none⟩ "body" rfl
      ⟨some "body", none, none, none, none, none, none⟩ "body" rfl
      [] (.ok "hi") (.ok "hi") (some "mistral:7b") (some "qwen:0.5b")).2.2.2⟩

/-- A string containing a given character is not empty. -/
theorem strIsEmpty_false_of_containsChar {s : String} {ch : Char}
    (h : strContainsChar s ch = true) : strIsEmpty s = false := by
  cases s with | mk l =>
  cases l with
  | nil => simp [strContainsChar] at h
  | cons a as => simp [strIsEmpty]

/-- C2: the signer name in `generate_reply` is the text before `@` in
`userEmail`, capitalized; it is `"Me"` whenever no local part is derivable
(no `@` in the value, or an empty local part), and `"Bob"` for
`userEmail = "bob@x.com"`. -/
theorem signer_name_resolution (ue : String) :
    (strContainsChar ue '@' = false → resolvedSigner (some ue) = "Me")
      ∧ (strIsEmpty (beforeChar '@' ue) = true → resolvedSigner (some ue) = "Me")
      ∧ (strContainsChar ue '@' = true → strIsEmpty (beforeChar '@' ue) = false →
          resolvedSigner (some ue) = pyCapitalize (beforeChar '@' ue))
      ∧ resolvedSigner (some "bob@x.com") = "Bob" := by
  refine ⟨?_, ?_, ?_, by decide⟩
  · intro h
    simp [resolvedSigner, resolveUserName, h]
  · intro h
    by_cases hc : strContainsChar ue '@' = true
    · simp [resolvedSigner, resolveUserName, h, hc]
    · have hc' : strContainsChar ue '@' = false := by simpa using hc
      simp [resolvedSigner, resolveUserName, hc']
  · intro hc h
    simp [resolvedSigner, resolveUserName, hc, h, strIsEmpty_false_of_containsChar hc]

/-- Witness for C2: an address without `@`, an empty local part, and
`bob@x.com`. -/
theorem signer_name_resolution_witness :
    resolvedSigner (some "plainname") = "Me"
      ∧ resolvedSigner (some "@x.com") = "Me"
      ∧ resolvedSigner (some "jane.roe@x.com") = pyCapitalize (beforeChar '@' "jane.roe@x.com")
      ∧ resolvedSigner (some "bob@x.com") = "Bob" :=
  ⟨(signer_name_resolution "plainname").1 (by decide),
    (signer_name_resolution "@x.com").2.1 (by decide),
    (signer_name_resolution "jane.roe@x.com").2.2.1 (by decide) (by decide),
    (signer_name_resolution "bob@x.com").2.2.2⟩

/-- C9: with `recipientName` absent and `sender = "Jane Doe <jane@x.com>"`,
the resolved recipient name is `"Jane Doe"` (the text before `<`, trimmed),
and the greeting built from it is `"Hi Jane Doe,"`. -/
theorem recipient_name_from_sender :
    resolvedRecipient none (some "Jane Doe <jane@x.com>") = "Jane Doe"
      ∧ greetingOf (resolvedRecipient none (some "Jane Doe <jane@x.com>")) = "Hi Jane Doe," :=
  ⟨by decide, by decide⟩

/-- C3: when the (trimmed) generated text does not start with `Hi`, `Hello`
or `Dear`, the returned reply starts with the synthesized greeting built
from the resolved recipient name, which is `"Hello,"` when no name was
resolved. -/
theorem greeting_postprocessing (rdata : ReplyRequest) (c : String)
    (hc : rdata.emailContent = some c) (probe : ProbeResult)
    (hp : (check_ollama probe).1 = true) (text : String)
    (hg : hasGreetingStart (pyStrip text) = false) :
    (∃ rest, generate_reply (some rdata) probe (.ok text)
        = (200, .replyBody
            (greetingOf (resolvedRecipient rdata.recipientName rdata.sender) ++ rest)))
      ∧ (strIsEmpty (resolvedRecipient rdata.recipientName rdata.sender) = true →
          greetingOf (resolvedRecipient rdata.recipientName rdata.sender) = "Hello,") := by
  constructor
  · have hgen : generate_reply (some rdata) probe (.ok text)
        = (200, .replyBody (withSignoff (resolvedSigner rdata.userEmail)
            (afterGreeting (greetingOf (resolvedRecipient rdata.recipientName rdata.sender))
              (pyStrip text)))) := by
      simp [generate_reply, hc, hp]
    have hag : afterGreeting (greetingOf (resolvedRecipient rdata.recipientName rdata.sender))
        (pyStrip text)
        = greetingOf (resolvedRecipient rdata.recipientName rdata.sender)
            ++ "\n\n" ++ pyStrip text := by
      simp [afterGreeting, hg]
    rw [hgen, hag]
    unfold withSignoff
    cases hno : noClosingToken (greetingOf (resolvedRecipient rdata.recipientName rdata.sender)
        ++ "\n\n" ++ pyStrip text) with
    | true =>
      refine ⟨"\n\n" ++ (pyStrip text
        ++ ("\n\nBest regards,\n" ++ resolvedSigner rdata.userEmail)), ?_⟩
      rw [if_pos rfl]
      simp only [strAppend_assoc]
    | false =>
      refine ⟨"\n\n" ++ pyStrip text, ?_⟩
      rw [if_neg Bool.false_ne_true]
      simp only [strAppend_assoc]
  · intro h
    simp [greetingOf, h]

/-- Witness for C3 at a concrete request and generated text. -/
theorem greeting_postprocessing_witness :
    ∃ rest, generate_reply
        (some ⟨some "body", none, some "Jane Doe <jane@x.com>", none, none, none, none⟩)
        (.httpResponse 200 ["llama3.2:1b"]) (.ok "thanks.")
      = (200, .replyBody
          (greetingOf (resolvedRecipient none (some "Jane Doe <jane@x.com>")) ++ rest)) :=
  (greeting_postprocessing
    ⟨some "body", none, some "Jane Doe <jane@x.com>", none, none, none, none⟩
    "body" rfl (.httpResponse 200 ["llama3.2:1b"]) (by decide) "thanks." (by decide)).1

/-- C1 counterexample: a request whose generated text contains none of
`regards`/`sincerely`/`best` (case-insensitively), yet whose returned reply
does not contain the resolved signer name at all (so it does not end with a
sign-off containing it): the recipient name `Bestie` smuggles `best` into
the reply when the greeting is prepended, so the sign-off step is skipped. -/
theorem signoff_claim_counterexample :
    noClosingToken "thanks for the note." = true
      ∧ generate_reply
          (some ⟨some "Please review", none, none, none, some "Bestie", none, none⟩)
          (.httpResponse 200 ["llama3.2:1b"]) (.ok "thanks for the note.")
        = (200, .replyBody "Hi Bestie,\n\nthanks for the note.")
      ∧ containsSubstr (resolvedSigner none) "Hi Bestie,\n\nthanks for the note." = false :=
  ⟨by decide, by decide, by decide⟩

/-- C1 (amended): when the reply after the greeting step — the trimmed
generated text, with the synthesized greeting prepended when it does not
already start with one — contains none of `regards`/`sincerely`/`best`
(case-insensitively), the returned reply ends with the sign-off
`"Best regards,\n"` followed by the resolved signer name. -/
theorem signoff_postprocessing_amended (rdata : ReplyRequest) (c : String)
    (hc : rdata.emailContent = some c) (probe : ProbeResult)
    (hp : (check_ollama probe).1 = true) (text : String)
    (hno : noClosingToken
        (afterGreeting (greetingOf (resolvedRecipient rdata.recipientName rdata.sender))
          (pyStrip text)) = true) :
    ∃ p, generate_reply (some rdata) probe (.ok text)
      = (200, .replyBody (p ++ "\n\nBest regards,\n" ++ resolvedSigner rdata.userEmail)) := by
  refine ⟨afterGreeting (greetingOf (resolvedRecipient rdata.recipientName rdata.sender))
    (pyStrip text), ?_⟩
  simp [generate_reply, hc, hp, withSignoff, hno]

/-- Witness for C1 (amended) at a concrete request and generated text. -/
theorem signoff_postprocessing_amended_witness :
    ∃ p, generate_reply
        (some ⟨some "body", none, some "Jane Doe <jane@x.com>", some "bob@x.com", none, none, none⟩)
        (.httpResponse 200 ["llama3.2:1b"]) (.ok "thanks a lot.")
      = (200, .replyBody (p ++ "\n\nBest regards,\n" ++ resolvedSigner (some "bob@x.com"))) :=
  signoff_postprocessing_amended
    ⟨some "body", none, some "Jane Doe <jane@x.com>", some "bob@x.com", none, none, none⟩
    "body" rfl (.httpResponse 200 ["llama3.2:1b"]) (by decide) "thanks a lot." (by decide)
